import Mathlib

/-!
Verification of the SSE streaming decoders of the `joeychilson/ai` Go
repository.

The two decode loops under study are:
* `anthropic.Client.ChatStream` (src/anthropic/client.go, lines 322-414),
  called Variant B in the specification;
* `openai.Client.ChatStream` (src/unnamed/part_000, lines 1362-1427),
  called Variant A in the specification.

The embedding models the input stream as the list of newline-terminated
lines returned by `bufio.Reader.ReadBytes('\n')` up to EOF (a final
unterminated chunk is returned by Go together with `io.EOF` and is
discarded by both loops, so it does not appear in the list).  The callback
is modelled by collecting the events it receives, in order; a decode run
also returns the terminal outcome and the suffix of input lines the loop
never read.

JSON payloads are modelled by an explicit JSON value type and a parser
faithful to `encoding/json` on the protocol's payloads (numbers are
modelled as integers: every numeric field of both wire protocols is
integral; strings support the common escapes).  Unmarshalling into a Go
struct is modelled field by field: a missing or `null` field leaves the
zero value, a type-mismatched field is a decode error, unknown fields are
ignored, and a duplicated key takes its last occurrence.
-/

/-- Whitespace as recognised by Go's `unicode.IsSpace` in the Latin-1
range, which is what `bytes.TrimSpace` strips from an SSE line. -/
def goIsSpace (c : Char) : Bool :=
  c = ' ' || c = '\t' || c = '\n' || c = '\x0b' || c = '\x0c' || c = '\r'
    || c.toNat = 0x85 || c.toNat = 0xa0

/-- Model of `bytes.TrimSpace` on a list of characters. -/
def trimSpaceList (cs : List Char) : List Char :=
  ((cs.dropWhile goIsSpace).reverse.dropWhile goIsSpace).reverse

/-- Model of `bytes.TrimSpace` on a line. -/
def trimSpace (s : String) : String :=
  String.mk (trimSpaceList s.toList)

/-- Model of `bytes.HasPrefix`. -/
def strStartsWith (s p : String) : Bool :=
  p.toList.isPrefixOf s.toList

/-- Model of `bytes.TrimPrefix`: drops the prefix when present, otherwise
returns the input unchanged. -/
def strTrimPre (s p : String) : String :=
  if strStartsWith s p then String.mk (s.toList.drop p.toList.length) else s

/-- JSON values, the target of `encoding/json` parsing. -/
inductive Json where
  | null
  | bool (b : Bool)
  | num (n : Int)
  | str (s : String)
  | arr (elems : List Json)
  | obj (fields : List (String × Json))

/-- The opening brace character (written by code point). -/
def lbr : Char := Char.ofNat 123

/-- The closing brace character (written by code point). -/
def rbr : Char := Char.ofNat 125

/-- JSON insignificant whitespace. -/
def isJsonWs (c : Char) : Bool :=
  c = ' ' || c = '\t' || c = '\n' || c = '\r'

/-- Skip insignificant whitespace. -/
def skipWs (cs : List Char) : List Char :=
  cs.dropWhile isJsonWs

/-- Decimal digit test. -/
def isDigitCh (c : Char) : Bool :=
  '0' ≤ c && c ≤ '9'

/-- Split a leading run of decimal digits. -/
def takeDigits : List Char → List Char × List Char
  | [] => ([], [])
  | c :: cs =>
    if isDigitCh c then
      let r := takeDigits cs
      (c :: r.1, r.2)
    else ([], c :: cs)

/-- Numeric value of a digit run. -/
def digitsToNat (ds : List Char) : Nat :=
  ds.foldl (fun a c => a * 10 + (c.toNat - '0'.toNat)) 0

/-- Parse the body of a JSON string, after its opening quote, decoding the
common escapes; returns the decoded characters and the remainder after the
closing quote. -/
def parseStrChars : List Char → Option (List Char × List Char)
  | [] => none
  | c :: rest =>
    if c = '"' then some ([], rest)
    else if c = '\\' then
      match rest with
      | [] => none
      | e :: rest2 =>
        let d? : Option Char :=
          if e = '"' then some '"'
          else if e = '\\' then some '\\'
          else if e = '/' then some '/'
          else if e = 'n' then some '\n'
          else if e = 't' then some '\t'
          else if e = 'r' then some '\r'
          else if e = 'b' then some '\x08'
          else if e = 'f' then some '\x0c'
          else none
        match d? with
        | none => none
        | some d =>
          match parseStrChars rest2 with
          | none => none
          | some (cs, rem) => some (d :: cs, rem)
    else
      match parseStrChars rest with
      | none => none
      | some (cs, rem) => some (c :: cs, rem)

/-- Parse a JSON integer (optional minus sign and a digit run); a fraction
or exponent is out of the modelled integral subset. -/
def parseNumber (cs : List Char) : Option (Int × List Char) :=
  let core : List Char → Option (Nat × List Char) := fun l =>
    match takeDigits l with
    | ([], _) => none
    | (ds, rem) =>
      match rem with
      | [] => some (digitsToNat ds, [])
      | c :: _ =>
        if c = '.' || c = 'e' || c = 'E' then none
        else some (digitsToNat ds, rem)
  match cs with
  | '-' :: rest =>
    match core rest with
    | none => none
    | some (n, rem) => some (-(n : Int), rem)
  | _ =>
    match core cs with
    | none => none
    | some (n, rem) => some ((n : Int), rem)

/-- A frame of the iterative JSON parser: an array or object being built,
with the values accumulated so far (in reverse). -/
inductive PFrame where
  | arrF (acc : List Json)
  | objF (acc : List (String × Json)) (key : String)

/-- One pass of the iterative JSON parser.  `cur = none` means a value is
expected next; `cur = some v` means the value `v` was just completed and
the enclosing frame (if any) must be continued.  Each recursive call
consumes at least one input character, so fuel `cs.length + 2` always
suffices. -/
def parseSteps : Nat → List PFrame → Option Json → List Char →
    Option (Json × List Char)
  | 0, _, _, _ => none
  | Nat.succ f, stack, some v, cs =>
    match stack with
    | [] => some (v, cs)
    | PFrame.arrF acc :: stk =>
      match skipWs cs with
      | [] => none
      | c :: cs2 =>
        if c = ',' then parseSteps f (PFrame.arrF (v :: acc) :: stk) none cs2
        else if c = ']' then
          parseSteps f stk (some (Json.arr (v :: acc).reverse)) cs2
        else none
    | PFrame.objF acc key :: stk =>
      match skipWs cs with
      | [] => none
      | c :: cs2 =>
        if c = ',' then
          match skipWs cs2 with
          | [] => none
          | c2 :: cs3 =>
            if c2 = '"' then
              match parseStrChars cs3 with
              | none => none
              | some (kcs, cs4) =>
                match skipWs cs4 with
                | ':' :: cs5 =>
                  parseSteps f
                    (PFrame.objF ((key, v) :: acc) (String.mk kcs) :: stk)
                    none cs5
                | _ => none
            else none
        else if c = rbr then
          parseSteps f stk (some (Json.obj ((key, v) :: acc).reverse)) cs2
        else none
  | Nat.succ f, stack, none, cs =>
    match skipWs cs with
    | [] => none
    | c :: cs2 =>
      if c = '"' then
        match parseStrChars cs2 with
        | none => none
        | some (scs, cs3) =>
          parseSteps f stack (some (Json.str (String.mk scs))) cs3
      else if c = '[' then
        match skipWs cs2 with
        | ']' :: cs3 => parseSteps f stack (some (Json.arr [])) cs3
        | _ => parseSteps f (PFrame.arrF [] :: stack) none cs2
      else if c = lbr then
        match skipWs cs2 with
        | [] => none
        | c2 :: cs3 =>
          if c2 = rbr then parseSteps f stack (some (Json.obj [])) cs3
          else if c2 = '"' then
            match parseStrChars cs3 with
            | none => none
            | some (kcs, cs4) =>
              match skipWs cs4 with
              | ':' :: cs5 =>
                parseSteps f (PFrame.objF [] (String.mk kcs) :: stack) none cs5
              | _ => none
          else none
      else if c = 't' then
        if List.isPrefixOf "rue".toList cs2 then
          parseSteps f stack (some (Json.bool true)) (cs2.drop 3)
        else none
      else if c = 'f' then
        if List.isPrefixOf "alse".toList cs2 then
          parseSteps f stack (some (Json.bool false)) (cs2.drop 4)
        else none
      else if c = 'n' then
        if List.isPrefixOf "ull".toList cs2 then
          parseSteps f stack (some Json.null) (cs2.drop 3)
        else none
      else
        match parseNumber (c :: cs2) with
        | none => none
        | some (n, cs3) => parseSteps f stack (some (Json.num n)) cs3

/-- Model of `json.Unmarshal`'s syntactic phase: parse one JSON document;
trailing non-whitespace input is an error, exactly as in `encoding/json`. -/
def Json.parse? (s : String) : Option Json :=
  match parseSteps (s.toList.length + 2) [] none s.toList with
  | none => none
  | some (j, rest) => if skipWs rest = [] then some j else none

/-- Last binding of key `k` in an object's field list (for duplicated keys
`encoding/json` keeps the last occurrence). -/
def lookupFieldLast (fs : List (String × Json)) (k : String) : Option Json :=
  fs.foldl (fun acc f => if f.1 = k then some f.2 else acc) none

/-- The JSON value bound to field `k`, with `null` standing for an absent
field (both leave the Go zero value in place). -/
def jfield (fs : List (String × Json)) (k : String) : Json :=
  (lookupFieldLast fs k).getD Json.null

/-- Unmarshal a JSON value as the contents of a Go struct: an object gives
its fields, `null` leaves the zero value (no fields), anything else is a
type error. -/
def structFields? : Json → Option (List (String × Json))
  | Json.obj fs => some fs
  | Json.null => some []
  | _ => none

/-- Unmarshal a `string`-typed struct field. -/
def getStr (fs : List (String × Json)) (k : String) : Option String :=
  match jfield fs k with
  | Json.null => some ""
  | Json.str s => some s
  | _ => none

/-- Unmarshal an integer-typed struct field. -/
def getInt (fs : List (String × Json)) (k : String) : Option Int :=
  match jfield fs k with
  | Json.null => some 0
  | Json.num n => some n
  | _ => none

/-- Unmarshal a slice-typed struct field (`null` and absent give the empty
slice). -/
def getArr (fs : List (String × Json)) (k : String) : Option (List Json) :=
  match jfield fs k with
  | Json.null => some []
  | Json.arr xs => some xs
  | _ => none

namespace Anthropic

/-- Go `anthropic.LanguageModel` is a string type. -/
abbrev LanguageModel := String

/-- Go `anthropic.Role` is a string type. -/
abbrev Role := String

/-- `anthropic.Usage` (client.go 177-180). -/
structure Usage where
  inputTokens : Int
  outputTokens : Int

/-- `anthropic.TextContent` (client.go 62-64); only the `text` field has a
JSON tag seen by unmarshalling. -/
structure TextContent where
  text : String

/-- `anthropic.ChatMessage` (client.go 183-192). -/
structure ChatMessage where
  id : String
  type : String
  role : Role
  content : List TextContent
  model : LanguageModel
  stopReason : String
  stopSequence : String
  usage : Usage

/-- The anonymous `{ Type, Text }` struct used by both
`ContentBlockStartEvent.ContentBlock` and `ContentBlockDeltaEvent.Delta`
(client.go 254-257 and 269-272). -/
structure BlockText where
  type : String
  text : String

/-- `anthropic.PingEvent` (client.go 230-232). -/
structure PingEvent where
  type : String

/-- `anthropic.MessageStartEvent` (client.go 240-243). -/
structure MessageStartEvent where
  type : String
  message : ChatMessage

/-- `anthropic.ContentBlockStartEvent` (client.go 251-258). -/
structure ContentBlockStartEvent where
  type : String
  index : Int
  contentBlock : BlockText

/-- `anthropic.ContentBlockDeltaEvent` (client.go 266-273). -/
structure ContentBlockDeltaEvent where
  type : String
  index : Int
  delta : BlockText

/-- `anthropic.ContentBlockStopEvent` (client.go 281-284). -/
structure ContentBlockStopEvent where
  type : String
  index : Int

/-- The anonymous delta struct of `MessageDeltaEvent` (client.go 294-297). -/
structure MessageDeltaInner where
  stopReason : String
  stopSequence : String

/-- The anonymous usage struct of `MessageDeltaEvent` (client.go 298-300). -/
structure MessageDeltaUsage where
  outputTokens : Int

/-- `anthropic.MessageDeltaEvent` (client.go 292-301). -/
structure MessageDeltaEvent where
  type : String
  delta : MessageDeltaInner
  usage : MessageDeltaUsage

/-- `anthropic.MessageStopEvent` (client.go 309-311). -/
structure MessageStopEvent where
  type : String

/-- The anonymous inner error struct of `anthropic.ErrorResponse`
(client.go 197-200). -/
structure ErrorDetail where
  type : String
  message : String

/-- `anthropic.ErrorResponse` (client.go 195-201). -/
structure ErrorResponse where
  type : String
  error : ErrorDetail

/-- `anthropic.Event`, the closed set of stream events delivered to the
callback (one constructor per concrete type implementing the interface). -/
inductive Event where
  | ping (e : PingEvent)
  | messageStart (e : MessageStartEvent)
  | contentBlockStart (e : ContentBlockStartEvent)
  | contentBlockDelta (e : ContentBlockDeltaEvent)
  | contentBlockStop (e : ContentBlockStopEvent)
  | messageDelta (e : MessageDeltaEvent)
  | messageStop (e : MessageStopEvent)

/-- Unmarshal `anthropic.Usage`. -/
def decodeUsage (j : Json) : Option Usage := do
  let fs ← structFields? j
  let i ← getInt fs "input_tokens"
  let o ← getInt fs "output_tokens"
  pure { inputTokens := i, outputTokens := o }

/-- Unmarshal `anthropic.TextContent`. -/
def decodeTextContent (j : Json) : Option TextContent := do
  let fs ← structFields? j
  let t ← getStr fs "text"
  pure { text := t }

/-- Unmarshal `anthropic.ChatMessage`. -/
def decodeChatMessage (j : Json) : Option ChatMessage := do
  let fs ← structFields? j
  let i ← getStr fs "id"
  let ty ← getStr fs "type"
  let r ← getStr fs "role"
  let cj ← getArr fs "content"
  let c ← cj.mapM decodeTextContent
  let m ← getStr fs "model"
  let sr ← getStr fs "stop_reason"
  let ss ← getStr fs "stop_sequence"
  let u ← decodeUsage (jfield fs "usage")
  pure { id := i, type := ty, role := r, content := c, model := m,
         stopReason := sr, stopSequence := ss, usage := u }

/-- Unmarshal the anonymous `{ Type, Text }` struct. -/
def decodeBlockText (j : Json) : Option BlockText := do
  let fs ← structFields? j
  let ty ← getStr fs "type"
  let tx ← getStr fs "text"
  pure { type := ty, text := tx }

/-- Unmarshal `anthropic.PingEvent`. -/
def decodePing (j : Json) : Option PingEvent := do
  let fs ← structFields? j
  let t ← getStr fs "type"
  pure { type := t }

/-- Unmarshal `anthropic.MessageStartEvent`. -/
def decodeMessageStart (j : Json) : Option MessageStartEvent := do
  let fs ← structFields? j
  let t ← getStr fs "type"
  let m ← decodeChatMessage (jfield fs "message")
  pure { type := t, message := m }

/-- Unmarshal `anthropic.ContentBlockStartEvent`. -/
def decodeContentBlockStart (j : Json) : Option ContentBlockStartEvent := do
  let fs ← structFields? j
  let t ← getStr fs "type"
  let i ← getInt fs "index"
  let cb ← decodeBlockText (jfield fs "content_block")
  pure { type := t, index := i, contentBlock := cb }

/-- Unmarshal `anthropic.ContentBlockDeltaEvent`. -/
def decodeContentBlockDelta (j : Json) : Option ContentBlockDeltaEvent := do
  let fs ← structFields? j
  let t ← getStr fs "type"
  let i ← getInt fs "index"
  let d ← decodeBlockText (jfield fs "delta")
  pure { type := t, index := i, delta := d }

/-- Unmarshal `anthropic.ContentBlockStopEvent`. -/
def decodeContentBlockStop (j : Json) : Option ContentBlockStopEvent := do
  let fs ← structFields? j
  let t ← getStr fs "type"
  let i ← getInt fs "index"
  pure { type := t, index := i }

/-- Unmarshal the delta struct of `anthropic.MessageDeltaEvent`. -/
def decodeMessageDeltaInner (j : Json) : Option MessageDeltaInner := do
  let fs ← structFields? j
  let sr ← getStr fs "stop_reason"
  let ss ← getStr fs "stop_sequence"
  pure { stopReason := sr, stopSequence := ss }

/-- Unmarshal the usage struct of `anthropic.MessageDeltaEvent`. -/
def decodeMessageDeltaUsage (j : Json) : Option MessageDeltaUsage := do
  let fs ← structFields? j
  let o ← getInt fs "output_tokens"
  pure { outputTokens := o }

/-- Unmarshal `anthropic.MessageDeltaEvent`. -/
def decodeMessageDelta (j : Json) : Option MessageDeltaEvent := do
  let fs ← structFields? j
  let t ← getStr fs "type"
  let d ← decodeMessageDeltaInner (jfield fs "delta")
  let u ← decodeMessageDeltaUsage (jfield fs "usage")
  pure { type := t, delta := d, usage := u }

/-- Unmarshal `anthropic.MessageStopEvent`. -/
def decodeMessageStop (j : Json) : Option MessageStopEvent := do
  let fs ← structFields? j
  let t ← getStr fs "type"
  pure { type := t }

/-- Unmarshal the inner error struct of `anthropic.ErrorResponse`. -/
def decodeErrorDetail (j : Json) : Option ErrorDetail := do
  let fs ← structFields? j
  let t ← getStr fs "type"
  let m ← getStr fs "message"
  pure { type := t, message := m }

/-- Unmarshal `anthropic.ErrorResponse`. -/
def decodeErrorResponse (j : Json) : Option ErrorResponse := do
  let fs ← structFields? j
  let t ← getStr fs "type"
  let e ← decodeErrorDetail (jfield fs "error")
  pure { type := t, error := e }

/-- Unmarshal the minimal envelope `struct { Type string }` the loop uses
to peek at the discriminator (client.go 352-354). -/
def decodeEnvelopeType (j : Json) : Option String := do
  let fs ← structFields? j
  getStr fs "type"

/-- The effect of one iteration of the `ChatStream` read loop on one line:
skip it, deliver an event and continue, deliver the terminal event and
return, fail decoding, or fail with the upstream error message. -/
inductive Step where
  | skip
  | emit (e : Event)
  | stop (e : Event)
  | fail (data : String)
  | apiError (msg : String)

/-- Dispatch of an already-parsed `data:` payload on its `type`
discriminator — the `switch event.Type` of client.go 359-411.  The
argument `data` is the raw payload text carried by decode failures. -/
def dispatch (data : String) (j : Json) : Step :=
  match decodeEnvelopeType j with
  | none => Step.fail data
  | some t =>
    if t = "ping" then
      match decodePing j with
      | none => Step.fail data
      | some e => Step.emit (Event.ping e)
    else if t = "message_start" then
      match decodeMessageStart j with
      | none => Step.fail data
      | some e => Step.emit (Event.messageStart e)
    else if t = "content_block_start" then
      match decodeContentBlockStart j with
      | none => Step.fail data
      | some e => Step.emit (Event.contentBlockStart e)
    else if t = "content_block_delta" then
      match decodeContentBlockDelta j with
      | none => Step.fail data
      | some e => Step.emit (Event.contentBlockDelta e)
    else if t = "content_block_stop" then
      match decodeContentBlockStop j with
      | none => Step.fail data
      | some e => Step.emit (Event.contentBlockStop e)
    else if t = "message_delta" then
      match decodeMessageDelta j with
      | none => Step.fail data
      | some e => Step.emit (Event.messageDelta e)
    else if t = "message_stop" then
      match decodeMessageStop j with
      | none => Step.fail data
      | some e => Step.stop (Event.messageStop e)
    else if t = "error" then
      match decodeErrorResponse j with
      | none => Step.fail data
      | some er => Step.apiError (er.error.type ++ ": " ++ er.error.message)
    else
      Step.skip

/-- Handling of one stripped non-skipped line: parse the payload as JSON
and dispatch on the discriminator (client.go 350-411). -/
def handleData (data : String) : Step :=
  match Json.parse? data with
  | none => Step.fail data
  | some j => dispatch data j

/-- One iteration of the `ChatStream` loop body on one raw line
(client.go 345-411): trim, skip blank and `event:` framing lines, strip
the `data:` framing and handle the payload. -/
def classifyLine (l : String) : Step :=
  let line := trimSpace l
  if line = "" then Step.skip
  else if strStartsWith line "event:" then Step.skip
  else handleData (trimSpace (strTrimPre line "data:"))

/-- Terminal outcome of a `ChatStream` call: success, a JSON decode error
(carrying the offending payload text), or the protocol-level error built
from an upstream `error` event (client.go 408). -/
inductive StreamOutcome where
  | ok
  | decodeFailure (data : String)
  | apiFailure (msg : String)

/-- Observable behaviour of one `ChatStream` call: the events passed to
the callback in order, the terminal outcome, and the input lines the loop
returned without reading. -/
structure StreamRun where
  events : List Event
  outcome : StreamOutcome
  unread : List String

/-- The `ChatStream` read loop (client.go 336-413) over the list of lines
the transport delivers before EOF; reaching the end of the list is the
`io.EOF` break, which returns success. -/
def chatStreamLoop : List String → StreamRun
  | [] => { events := [], outcome := StreamOutcome.ok, unread := [] }
  | l :: rest =>
    match classifyLine l with
    | Step.skip => chatStreamLoop rest
    | Step.emit e =>
      let r := chatStreamLoop rest
      { events := e :: r.events, outcome := r.outcome, unread := r.unread }
    | Step.stop e =>
      { events := [e], outcome := StreamOutcome.ok, unread := rest }
    | Step.fail d =>
      { events := [], outcome := StreamOutcome.decodeFailure d, unread := rest }
    | Step.apiError m =>
      { events := [], outcome := StreamOutcome.apiFailure m, unread := rest }

end Anthropic

namespace OpenAI

/-- Go `openai.LanguageModel` is a string type. -/
abbrev LanguageModel := String

/-- Go `openai.Role` is a string type. -/
abbrev Role := String

/-- `openai.Delta` (part_000 1353-1356). -/
structure Delta where
  content : String
  role : String

/-- `openai.Choice` (part_000 1346-1350). -/
structure Choice where
  delta : Delta
  finishReason : String
  index : Int

/-- `openai.ChatChunk` (part_000 1337-1343), the value handed to the
stream callback. -/
structure ChatChunk where
  id : String
  object : String
  created : Int
  model : String
  choices : List Choice

/-- The anonymous `event` struct the loop unmarshals each line into
(part_000 1394-1400); it carries the same fields as `ChatChunk`. -/
structure RawEvent where
  id : String
  object : String
  created : Int
  model : String
  choices : List Choice

/-- Unmarshal `openai.Delta`. -/
def decodeDelta (j : Json) : Option Delta := do
  let fs ← structFields? j
  let c ← getStr fs "content"
  let r ← getStr fs "role"
  pure { content := c, role := r }

/-- Unmarshal `openai.Choice`. -/
def decodeChoice (j : Json) : Option Choice := do
  let fs ← structFields? j
  let d ← decodeDelta (jfield fs "delta")
  let fr ← getStr fs "finish_reason"
  let i ← getInt fs "index"
  pure { delta := d, finishReason := fr, index := i }

/-- Unmarshal the anonymous per-line event struct (part_000 1394-1401). -/
def decodeRawEvent (j : Json) : Option RawEvent := do
  let fs ← structFields? j
  let i ← getStr fs "id"
  let ob ← getStr fs "object"
  let cr ← getInt fs "created"
  let m ← getStr fs "model"
  let cj ← getArr fs "choices"
  let cs ← cj.mapM decodeChoice
  pure { id := i, object := ob, created := cr, model := m, choices := cs }

/-- The chunk constructed for one choice of a record (part_000 1406-1418):
the record's `id`, `object`, `created` and `model` together with a
one-element `Choices` slice holding exactly that choice. -/
def mkChunk (ev : RawEvent) (c : Choice) : ChatChunk :=
  { id := ev.id, object := ev.object, created := ev.created,
    model := ev.model,
    choices := [{ delta := c.delta, finishReason := c.finishReason,
                  index := c.index }] }

/-- The `for _, choice := range event.Choices` body (part_000 1405-1424):
one callback per choice in slice order; a choice with a non-empty
`FinishReason` makes the call return right after its callback.  Returns
the chunks delivered and whether the loop returned. -/
def emitChoices (ev : RawEvent) : List Choice → List ChatChunk × Bool
  | [] => ([], false)
  | c :: cs =>
    let chunk := mkChunk ev c
    if c.finishReason ≠ "" then ([chunk], true)
    else
      let r := emitChoices ev cs
      (chunk :: r.1, r.2)

/-- Effect of one iteration of the openai `ChatStream` read loop on one
line: skip it, deliver chunks and continue, deliver chunks and return, or
fail unmarshalling. -/
inductive Step where
  | skip
  | emit (chunks : List ChatChunk)
  | stopAfter (chunks : List ChatChunk)
  | fail (data : String)

/-- One iteration of the openai `ChatStream` loop body on one raw line
(part_000 1387-1424): trim, skip blank lines, strip the `data: ` framing,
unmarshal the whole payload, and fan out over its choices. -/
def classifyLine (l : String) : Step :=
  let line := trimSpace l
  if line = "" then Step.skip
  else
    let data := strTrimPre line "data: "
    match Json.parse? data with
    | none => Step.fail data
    | some j =>
      match decodeRawEvent j with
      | none => Step.fail data
      | some ev =>
        let r := emitChoices ev ev.choices
        if r.2 then Step.stopAfter r.1 else Step.emit r.1

/-- Terminal outcome of an openai `ChatStream` call: success or an
unmarshalling failure carrying the offending payload text
(part_000 1401-1403). -/
inductive StreamOutcome where
  | ok
  | decodeFailure (data : String)

/-- Observable behaviour of one openai `ChatStream` call: chunks passed to
the callback in order, terminal outcome, and input lines never read. -/
structure StreamRun where
  events : List ChatChunk
  outcome : StreamOutcome
  unread : List String

/-- The openai `ChatStream` read loop (part_000 1378-1426) over the list
of lines delivered before EOF; the end of the list is the `io.EOF` break,
which returns success. -/
def chatStreamLoop : List String → StreamRun
  | [] => { events := [], outcome := StreamOutcome.ok, unread := [] }
  | l :: rest =>
    match classifyLine l with
    | Step.skip => chatStreamLoop rest
    | Step.emit cks =>
      let r := chatStreamLoop rest
      { events := cks ++ r.events, outcome := r.outcome, unread := r.unread }
    | Step.stopAfter cks =>
      { events := cks, outcome := StreamOutcome.ok, unread := rest }
    | Step.fail d =>
      { events := [], outcome := StreamOutcome.decodeFailure d, unread := rest }

end OpenAI

/-- Model of Go `float32` request fields by their bit pattern; the code
under study never computes with them, it only marshals them. -/
structure Float32 where
  bits : Nat

namespace Anthropic

/-- `anthropic.ImageSource` (client.go 83-87). -/
structure ImageSource where
  type : String
  mediaType : String
  data : String

/-- `anthropic.ImageContent` (client.go 90-92). -/
structure ImageContent where
  source : ImageSource

/-- The closed set of types implementing `anthropic.Content`. -/
inductive Content where
  | text (c : TextContent)
  | image (c : ImageContent)

/-- The closed set of types implementing `anthropic.Message`
(client.go 116-118 and 137-139). -/
inductive Message where
  | assistant (content : List Content)
  | user (content : List Content)

/-- `anthropic.Metadata` (client.go 158-160). -/
structure Metadata where
  userID : String

/-- `anthropic.ChatRequest` (client.go 163-174), the caller-supplied
request struct passed by pointer to `Chat` and `ChatStream`. -/
structure ChatRequest where
  model : LanguageModel
  messages : List Message
  system : String
  maxTokens : Int
  metadata : Metadata
  stopSequences : List String
  stream : Bool
  temperature : Float32
  topP : Float32
  topK : Int

/-- The effect of `anthropic.Client.Chat` on the caller's request struct:
`req.Stream = false` (client.go 205).  The struct is passed by pointer, so
this updated struct is what the caller observes after the call returns. -/
def chatSetStream (req : ChatRequest) : ChatRequest :=
  { req with stream := false }

/-- The effect of `anthropic.Client.ChatStream` on the caller's request
struct: `req.Stream = true` (client.go 323), observed by the caller after
the call since the struct is passed by pointer. -/
def chatStreamSetStream (req : ChatRequest) : ChatRequest :=
  { req with stream := true }

end Anthropic

namespace OpenAI

/-- `openai.TextContent` (part_000 1110-1112). -/
structure TextContent where
  text : String

/-- `openai.ImageContent` (part_000 1135-1137). -/
structure ImageContent where
  url : String

/-- The closed set of types implementing `openai.Content`. -/
inductive Content where
  | text (c : TextContent)
  | image (c : ImageContent)

/-- The anonymous function struct of `openai.ToolCall`
(part_000 1241-1244). -/
structure ToolCallFn where
  name : String
  arguments : String

/-- `openai.ToolCall` (part_000 1238-1245). -/
structure ToolCall where
  id : String
  type : String
  function : ToolCallFn

/-- `openai.SystemMessage` (part_000 1080-1083). -/
structure SystemMessage where
  content : String
  name : String

/-- `openai.UserMessage` (part_000 1156-1159). -/
structure UserMessage where
  content : List Content
  name : String

/-- `openai.AssistantMessage` (part_000 1179-1183). -/
structure AssistantMessage where
  content : String
  name : String
  toolCalls : List ToolCall

/-- `openai.ToolMessage` (part_000 1205-1208). -/
structure ToolMessage where
  content : String
  toolCallID : String

/-- The closed set of types implementing `openai.Message`. -/
inductive Message where
  | system (m : SystemMessage)
  | user (m : UserMessage)
  | assistant (m : AssistantMessage)
  | tool (m : ToolMessage)

/-- `openai.Tool` (part_000 1230-1234); its `map[string]any` parameters
are modelled as JSON fields. -/
structure Tool where
  name : String
  description : String
  parameters : List (String × Json)

/-- The anonymous function struct of `openai.ToolChoice`
(part_000 1249-1252). -/
structure ToolChoiceFn where
  name : String

/-- `openai.ToolChoice` (part_000 1247-1253). -/
structure ToolChoice where
  type : String
  function : ToolChoiceFn

/-- `openai.ChatRequest` (part_000 1292-1311), the caller-supplied request
struct passed by pointer to `Chat` and `ChatStream`. -/
structure ChatRequest where
  messages : List Message
  model : LanguageModel
  frequencyPenalty : Float32
  logitBias : Float32
  logProbs : Bool
  topLogProbs : Int
  maxTokens : Int
  n : Int
  presencePenalty : Float32
  responseFormat : String
  seed : Int
  stop : List String
  stream : Bool
  temperature : Float32
  topP : Float32
  tools : List Tool
  toolChoices : List ToolChoice
  user : String

/-- The effect of `openai.Client.Chat` on the caller's request struct:
`req.Stream = false` (part_000 1315), observed by the caller after the
call since the struct is passed by pointer. -/
def chatSetStream (req : ChatRequest) : ChatRequest :=
  { req with stream := false }

/-- The effect of `openai.Client.ChatStream` on the caller's request
struct: `req.Stream = true` (part_000 1363), observed by the caller after
the call since the struct is passed by pointer. -/
def chatStreamSetStream (req : ChatRequest) : ChatRequest :=
  { req with stream := true }

end OpenAI

/-- An element surviving at the head of `dropWhile` fails the predicate. -/
theorem dropWhile_head_false {α : Type} {p : α → Bool} :
    ∀ {cs : List α} {a : α} {t : List α},
      List.dropWhile p cs = a :: t → p a = false := by
  intro cs
  induction cs with
  | nil => intro a t h; simp [List.dropWhile] at h
  | cons c cs ih =>
    intro a t h
    cases hpc : p c with
    | true =>
      rw [List.dropWhile_cons, if_pos (by simp [hpc])] at h
      exact ih h
    | false =>
      rw [List.dropWhile_cons, if_neg (by simp [hpc])] at h
      cases h
      exact hpc

/-- Trimming is idempotent. -/
theorem trimSpaceList_idem (cs : List Char) :
    trimSpaceList (trimSpaceList cs) = trimSpaceList cs := by
  show List.rdropWhile goIsSpace
      (List.dropWhile goIsSpace
        (List.rdropWhile goIsSpace (List.dropWhile goIsSpace cs))) =
    List.rdropWhile goIsSpace (List.dropWhile goIsSpace cs)
  have h3 : List.dropWhile goIsSpace
      (List.rdropWhile goIsSpace (List.dropWhile goIsSpace cs)) =
      List.rdropWhile goIsSpace (List.dropWhile goIsSpace cs) := by
    rcases he : List.rdropWhile goIsSpace (List.dropWhile goIsSpace cs)
      with _ | ⟨a, t⟩
    · simp
    · obtain ⟨r, hr⟩ :=
        List.rdropWhile_prefix goIsSpace (List.dropWhile goIsSpace cs)
      rw [he] at hr
      have ha : goIsSpace a = false :=
        dropWhile_head_false (a := a) (t := t ++ r) (by rw [← hr]; simp)
      rw [List.dropWhile_cons, if_neg (by simp [ha])]
  rw [h3, List.rdropWhile_idempotent]

/-- `bytes.TrimSpace` is idempotent. -/
theorem trimSpace_idem (s : String) : trimSpace (trimSpace s) = trimSpace s := by
  show String.mk (trimSpaceList (trimSpaceList s.toList)) =
    String.mk (trimSpaceList s.toList)
  rw [trimSpaceList_idem]

namespace Anthropic

/-- `Delivers ls es` relates a run of non-terminal input lines to the
events the loop body delivers for them, in order: each line is either
skipped or yields exactly one event. -/
inductive Delivers : List String → List Event → Prop
  | nil : Delivers [] []
  | skip {l : String} {ls : List String} {es : List Event} :
      classifyLine l = Step.skip → Delivers ls es → Delivers (l :: ls) es
  | emit {l : String} {e : Event} {ls : List String} {es : List Event} :
      classifyLine l = Step.emit e → Delivers ls es → Delivers (l :: ls) (e :: es)

/-- Running the loop over a delivering run of lines delivers exactly its
events, in order, and then continues with the remaining input. -/
theorem deliversB_append {pre : List String} {es : List Event}
    (h : Delivers pre es) (tail : List String) :
    chatStreamLoop (pre ++ tail) =
      { events := es ++ (chatStreamLoop tail).events,
        outcome := (chatStreamLoop tail).outcome,
        unread := (chatStreamLoop tail).unread } := by
  induction h with
  | nil => rfl
  | skip hc _ ih => simpa [chatStreamLoop, hc] using ih
  | emit hc _ ih => simp [chatStreamLoop, hc, ih]

end Anthropic

namespace OpenAI

/-- `Delivers ls cks` relates a run of non-terminal input lines to the
chunks the loop body delivers for them, in order: each line is either
skipped (blank) or fans out into the chunks of its choices with no
finish-reason set. -/
inductive Delivers : List String → List ChatChunk → Prop
  | nil : Delivers [] []
  | skip {l : String} {ls : List String} {cs : List ChatChunk} :
      classifyLine l = Step.skip → Delivers ls cs → Delivers (l :: ls) cs
  | emit {l : String} {cks : List ChatChunk} {ls : List String}
      {cs : List ChatChunk} :
      classifyLine l = Step.emit cks → Delivers ls cs →
      Delivers (l :: ls) (cks ++ cs)

/-- Running the loop over a delivering run of lines delivers exactly its
chunks, in order, and then continues with the remaining input. -/
theorem deliversA_append {pre : List String} {cs : List ChatChunk}
    (h : Delivers pre cs) (tail : List String) :
    chatStreamLoop (pre ++ tail) =
      { events := cs ++ (chatStreamLoop tail).events,
        outcome := (chatStreamLoop tail).outcome,
        unread := (chatStreamLoop tail).unread } := by
  induction h with
  | nil => rfl
  | skip hc _ ih => simpa [chatStreamLoop, hc] using ih
  | emit hc _ ih => simp [chatStreamLoop, hc, ih]

/-- When no choice of the record carries a finish-reason, the choice loop
delivers one chunk per choice, in slice order, and does not return. -/
theorem emitChoices_all_empty {ev : RawEvent} :
    ∀ {cs : List Choice}, (∀ c ∈ cs, c.finishReason = "") →
      emitChoices ev cs = (cs.map (mkChunk ev), false) := by
  intro cs
  induction cs with
  | nil => intro _; rfl
  | cons c cs ih =>
    intro h
    have hc : c.finishReason = "" := h c (by simp)
    simp [emitChoices, hc, ih (fun c' hc' => h c' (by simp [hc']))]

/-- The first choice carrying a non-empty finish-reason is delivered and
then the loop returns; the following choices are never delivered. -/
theorem emitChoices_stops {ev : RawEvent} {c : Choice} {cs₂ : List Choice}
    (hc : c.finishReason ≠ "") :
    ∀ {cs₁ : List Choice}, (∀ c' ∈ cs₁, c'.finishReason = "") →
      emitChoices ev (cs₁ ++ c :: cs₂) =
        (cs₁.map (mkChunk ev) ++ [mkChunk ev c], true) := by
  intro cs₁
  induction cs₁ with
  | nil => intro _; simp [emitChoices, hc]
  | cons a as ih =>
    intro h
    have ha : a.finishReason = "" := h a (by simp)
    simp [emitChoices, ha, ih (fun c' hc' => h c' (by simp [hc']))]

end OpenAI

namespace Anthropic

/-- A trimmed line that is neither blank nor an `event:` framing line is
handled through its stripped `data:` payload. -/
theorem classifyLine_not_skipped {l : String}
    (h1 : trimSpace l ≠ "")
    (h2 : strStartsWith (trimSpace l) "event:" = false) :
    classifyLine l = handleData (trimSpace (strTrimPre (trimSpace l) "data:")) := by
  simp only [classifyLine]
  rw [if_neg h1, if_neg (by simp [h2])]

/-- Dispatch of a payload whose discriminator is `error`. -/
theorem dispatch_error {data : String} {j : Json} {er : ErrorResponse}
    (ht : decodeEnvelopeType j = some "error")
    (hd : decodeErrorResponse j = some er) :
    dispatch data j = Step.apiError (er.error.type ++ ": " ++ er.error.message) := by
  unfold dispatch
  rw [ht]
  simp [hd]

/-- Dispatch of a payload whose discriminator is `message_stop`. -/
theorem dispatch_message_stop {data : String} {j : Json} {e : MessageStopEvent}
    (ht : decodeEnvelopeType j = some "message_stop")
    (hd : decodeMessageStop j = some e) :
    dispatch data j = Step.stop (Event.messageStop e) := by
  unfold dispatch
  rw [ht]
  simp [hd]

/-- Dispatch of a payload whose discriminator is none of the known kinds. -/
theorem dispatch_unknown {data : String} {j : Json} {t : String}
    (ht : decodeEnvelopeType j = some t)
    (hunk : t ∉ (["ping", "message_start", "content_block_start",
      "content_block_delta", "content_block_stop", "message_delta",
      "message_stop", "error"] : List String)) :
    dispatch data j = Step.skip := by
  simp only [List.mem_cons, List.mem_singleton] at hunk
  push_neg at hunk
  obtain ⟨n1, n2, n3, n4, n5, n6, n7, n8⟩ := hunk
  unfold dispatch
  rw [ht]
  simp [n1, n2, n3, n4, n5, n6, n7, n8]

end Anthropic

namespace OpenAI

/-- A non-blank line whose stripped payload unmarshals into an event fans
out into the chunks of its choices via `emitChoices`. -/
theorem classifyLine_parsed {l : String} {j : Json} {ev : RawEvent}
    (h1 : trimSpace l ≠ "")
    (hp : Json.parse? (strTrimPre (trimSpace l) "data: ") = some j)
    (hd : decodeRawEvent j = some ev) :
    classifyLine l =
      (if (emitChoices ev ev.choices).2
       then Step.stopAfter (emitChoices ev ev.choices).1
       else Step.emit (emitChoices ev ev.choices).1) := by
  simp only [classifyLine]
  rw [if_neg h1, hp]
  simp [hd]

end OpenAI

/-- C1: for every well-formed event sequence ending in the protocol's
terminal marker, each decoder variant invokes the handler exactly once per
decoded event, in wire order, and once the terminal event is observed no
further events are delivered and the decode call returns success without
reading further input.  `Delivers` relates the preceding lines to their
decoded events; the terminal line is the one classified `stop`
(Variant B's `message_stop`) or `stopAfter` (Variant A's non-empty
finish-reason), and the lines after it come back unread. -/
theorem c1_handler_once_per_event_in_wire_order
    (preB : List String) (esB : List Anthropic.Event) (lB : String)
    (eB : Anthropic.Event) (extraB : List String)
    (hpreB : Anthropic.Delivers preB esB)
    (hstopB : Anthropic.classifyLine lB = Anthropic.Step.stop eB)
    (preA : List String) (csA : List OpenAI.ChatChunk) (lA : String)
    (cksA : List OpenAI.ChatChunk) (extraA : List String)
    (hpreA : OpenAI.Delivers preA csA)
    (hstopA : OpenAI.classifyLine lA = OpenAI.Step.stopAfter cksA) :
    Anthropic.chatStreamLoop (preB ++ lB :: extraB) =
      { events := esB ++ [eB], outcome := Anthropic.StreamOutcome.ok,
        unread := extraB } ∧
    OpenAI.chatStreamLoop (preA ++ lA :: extraA) =
      { events := csA ++ cksA, outcome := OpenAI.StreamOutcome.ok,
        unread := extraA } := by
  constructor
  · rw [Anthropic.deliversB_append hpreB]
    simp [Anthropic.chatStreamLoop, hstopB]
  · rw [OpenAI.deliversA_append hpreA]
    simp [OpenAI.chatStreamLoop, hstopA]

set_option maxRecDepth 8000 in
/-- Witness for C1 on concrete streams: Variant B delivers a ping then the
terminal `message_stop` and leaves a trailing line unread; Variant A
delivers one content chunk, then a chunk whose finish-reason is `stop`,
and leaves a trailing line unread. -/
theorem c1_witness :
    Anthropic.chatStreamLoop
        (["data: \x7b\"type\":\"ping\"\x7d\n"] ++
          "data: \x7b\"type\":\"message_stop\"\x7d\n" :: ["data: junk\n"]) =
      { events := [Anthropic.Event.ping ⟨"ping"⟩,
          Anthropic.Event.messageStop ⟨"message_stop"⟩],
        outcome := Anthropic.StreamOutcome.ok,
        unread := ["data: junk\n"] } ∧
    OpenAI.chatStreamLoop
        (["data: \x7b\"id\":\"c1\",\"choices\":[\x7b\"delta\":\x7b\"content\":\"Hi\"\x7d,\"index\":0\x7d]\x7d\n"] ++
          "data: \x7b\"id\":\"c2\",\"choices\":[\x7b\"finish_reason\":\"stop\"\x7d]\x7d\n" :: ["data: junk\n"]) =
      { events := [⟨"c1", "", 0, "", [⟨⟨"Hi", ""⟩, "", 0⟩]⟩,
          ⟨"c2", "", 0, "", [⟨⟨"", ""⟩, "stop", 0⟩]⟩],
        outcome := OpenAI.StreamOutcome.ok,
        unread := ["data: junk\n"] } := by
  refine c1_handler_once_per_event_in_wire_order
    ["data: \x7b\"type\":\"ping\"\x7d\n"] [Anthropic.Event.ping ⟨"ping"⟩]
    "data: \x7b\"type\":\"message_stop\"\x7d\n"
    (Anthropic.Event.messageStop ⟨"message_stop"⟩) ["data: junk\n"]
    ?_ rfl
    ["data: \x7b\"id\":\"c1\",\"choices\":[\x7b\"delta\":\x7b\"content\":\"Hi\"\x7d,\"index\":0\x7d]\x7d\n"]
    [⟨"c1", "", 0, "", [⟨⟨"Hi", ""⟩, "", 0⟩]⟩]
    "data: \x7b\"id\":\"c2\",\"choices\":[\x7b\"finish_reason\":\"stop\"\x7d]\x7d\n"
    [⟨"c2", "", 0, "", [⟨⟨"", ""⟩, "stop", 0⟩]⟩] ["data: junk\n"]
    ?_ rfl
  · exact Anthropic.Delivers.emit rfl Anthropic.Delivers.nil
  · exact @OpenAI.Delivers.emit
      "data: \x7b\"id\":\"c1\",\"choices\":[\x7b\"delta\":\x7b\"content\":\"Hi\"\x7d,\"index\":0\x7d]\x7d\n"
      [⟨"c1", "", 0, "", [⟨⟨"Hi", ""⟩, "", 0⟩]⟩] [] [] rfl OpenAI.Delivers.nil

/-- C2: for Variant A, a delta whose finish-reason field is the empty
string is not treated as terminal (the loop carries on with the remaining
input), while a delta whose finish-reason is any non-empty string makes
the call return success immediately after that delta's handler
invocation. -/
theorem c2_variantA_finish_reason_terminality
    (l : String) (j : Json) (ev : OpenAI.RawEvent) (rest : List String)
    (h1 : trimSpace l ≠ "")
    (hp : Json.parse? (strTrimPre (trimSpace l) "data: ") = some j)
    (hd : OpenAI.decodeRawEvent j = some ev) :
    ((∀ c ∈ ev.choices, c.finishReason = "") →
      OpenAI.chatStreamLoop (l :: rest) =
        { events := ev.choices.map (OpenAI.mkChunk ev) ++
            (OpenAI.chatStreamLoop rest).events,
          outcome := (OpenAI.chatStreamLoop rest).outcome,
          unread := (OpenAI.chatStreamLoop rest).unread }) ∧
    (∀ (cs₁ : List OpenAI.Choice) (c : OpenAI.Choice)
        (cs₂ : List OpenAI.Choice),
      ev.choices = cs₁ ++ c :: cs₂ →
      (∀ c' ∈ cs₁, c'.finishReason = "") → c.finishReason ≠ "" →
      OpenAI.chatStreamLoop (l :: rest) =
        { events := cs₁.map (OpenAI.mkChunk ev) ++ [OpenAI.mkChunk ev c],
          outcome := OpenAI.StreamOutcome.ok, unread := rest }) := by
  have hc := OpenAI.classifyLine_parsed h1 hp hd
  constructor
  · intro hall
    rw [OpenAI.emitChoices_all_empty hall] at hc
    simp only [Bool.false_eq_true, if_false] at hc
    simp [OpenAI.chatStreamLoop, hc]
  · intro cs₁ c cs₂ hsplit hpre hfin
    rw [hsplit, OpenAI.emitChoices_stops hfin hpre] at hc
    simp only [if_true] at hc
    simp [OpenAI.chatStreamLoop, hc]

set_option maxRecDepth 8000 in
/-- Witness for C2: a record whose single choice has no finish-reason is
delivered and the loop goes on to return success at EOF; a record whose
single choice has finish-reason `length` ends the call at once, leaving
the following line unread. -/
theorem c2_witness :
    OpenAI.chatStreamLoop ["data: \x7b\"id\":\"c1\",\"choices\":[\x7b\"delta\":\x7b\"content\":\"Hi\"\x7d,\"index\":0\x7d]\x7d\n"] =
      { events := [⟨"c1", "", 0, "", [⟨⟨"Hi", ""⟩, "", 0⟩]⟩],
        outcome := OpenAI.StreamOutcome.ok, unread := [] } ∧
    OpenAI.chatStreamLoop ["data: \x7b\"id\":\"c2\",\"choices\":[\x7b\"finish_reason\":\"length\"\x7d]\x7d\n", "data: junk\n"] =
      { events := [⟨"c2", "", 0, "", [⟨⟨"", ""⟩, "length", 0⟩]⟩],
        outcome := OpenAI.StreamOutcome.ok, unread := ["data: junk\n"] } := by
  constructor
  · exact (c2_variantA_finish_reason_terminality
      "data: \x7b\"id\":\"c1\",\"choices\":[\x7b\"delta\":\x7b\"content\":\"Hi\"\x7d,\"index\":0\x7d]\x7d\n"
      _ _ [] (by decide) rfl rfl).1 (by decide)
  · exact (c2_variantA_finish_reason_terminality
      "data: \x7b\"id\":\"c2\",\"choices\":[\x7b\"finish_reason\":\"length\"\x7d]\x7d\n"
      _ _ ["data: junk\n"] (by decide) rfl rfl).2
      [] ⟨⟨"", ""⟩, "length", 0⟩ [] rfl (by simp) (by decide)

/-- C9: for Variant A, a single wire record with several choices produces
one handler invocation per choice, each chunk carrying exactly that one
choice together with the record's id, object, created and model fields, in
array order; and when a choice carries a non-empty finish-reason the call
returns success right after that choice's invocation, so the later choices
of the record are never delivered. -/
theorem c9_multi_choice_fanout_and_truncation
    (l : String) (j : Json) (ev : OpenAI.RawEvent) (rest : List String)
    (h1 : trimSpace l ≠ "")
    (hp : Json.parse? (strTrimPre (trimSpace l) "data: ") = some j)
    (hd : OpenAI.decodeRawEvent j = some ev) :
    (∀ c ∈ ev.choices, OpenAI.mkChunk ev c =
      { id := ev.id, object := ev.object, created := ev.created,
        model := ev.model, choices := [c] }) ∧
    ((∀ c ∈ ev.choices, c.finishReason = "") →
      OpenAI.chatStreamLoop (l :: rest) =
        { events := ev.choices.map (OpenAI.mkChunk ev) ++
            (OpenAI.chatStreamLoop rest).events,
          outcome := (OpenAI.chatStreamLoop rest).outcome,
          unread := (OpenAI.chatStreamLoop rest).unread }) ∧
    (∀ (cs₁ : List OpenAI.Choice) (c : OpenAI.Choice)
        (cs₂ : List OpenAI.Choice),
      ev.choices = cs₁ ++ c :: cs₂ →
      (∀ c' ∈ cs₁, c'.finishReason = "") → c.finishReason ≠ "" →
      OpenAI.emitChoices ev ev.choices =
        (cs₁.map (OpenAI.mkChunk ev) ++ [OpenAI.mkChunk ev c], true) ∧
      OpenAI.chatStreamLoop (l :: rest) =
        { events := cs₁.map (OpenAI.mkChunk ev) ++ [OpenAI.mkChunk ev c],
          outcome := OpenAI.StreamOutcome.ok, unread := rest }) := by
  have hc := OpenAI.classifyLine_parsed h1 hp hd
  refine ⟨fun c _ => rfl, fun hall => ?_, fun cs₁ c cs₂ hsplit hpre hfin => ?_⟩
  · rw [OpenAI.emitChoices_all_empty hall] at hc
    simp only [Bool.false_eq_true, if_false] at hc
    simp [OpenAI.chatStreamLoop, hc]
  · have hstops : OpenAI.emitChoices ev (cs₁ ++ c :: cs₂) =
        (cs₁.map (OpenAI.mkChunk ev) ++ [OpenAI.mkChunk ev c], true) :=
      OpenAI.emitChoices_stops hfin hpre
    rw [← hsplit] at hstops
    refine ⟨hstops, ?_⟩
    rw [hstops] at hc
    simp only [if_true] at hc
    simp [OpenAI.chatStreamLoop, hc]

set_option maxRecDepth 8000 in
/-- Witness for C9: one record with three choices, the second carrying
finish-reason `stop` — the first two choices are delivered as singleton
chunks with the record's fields and the third is never delivered. -/
theorem c9_witness :
    OpenAI.chatStreamLoop ["data: \x7b\"id\":\"c9\",\"model\":\"gpt-4\",\"choices\":[\x7b\"delta\":\x7b\"content\":\"a\"\x7d,\"index\":0\x7d,\x7b\"delta\":\x7b\"content\":\"b\"\x7d,\"finish_reason\":\"stop\",\"index\":1\x7d,\x7b\"delta\":\x7b\"content\":\"c\"\x7d,\"index\":2\x7d]\x7d\n", "data: junk\n"] =
      { events := [⟨"c9", "", 0, "gpt-4", [⟨⟨"a", ""⟩, "", 0⟩]⟩,
          ⟨"c9", "", 0, "gpt-4", [⟨⟨"b", ""⟩, "stop", 1⟩]⟩],
        outcome := OpenAI.StreamOutcome.ok, unread := ["data: junk\n"] } :=
  ((c9_multi_choice_fanout_and_truncation
      "data: \x7b\"id\":\"c9\",\"model\":\"gpt-4\",\"choices\":[\x7b\"delta\":\x7b\"content\":\"a\"\x7d,\"index\":0\x7d,\x7b\"delta\":\x7b\"content\":\"b\"\x7d,\"finish_reason\":\"stop\",\"index\":1\x7d,\x7b\"delta\":\x7b\"content\":\"c\"\x7d,\"index\":2\x7d]\x7d\n"
      _ _ ["data: junk\n"] (by decide) rfl rfl).2.2
    [⟨⟨"a", ""⟩, "", 0⟩] ⟨⟨"b", ""⟩, "stop", 1⟩ [⟨⟨"c", ""⟩, "", 2⟩]
    rfl (by simp) (by decide)).2

namespace Anthropic

/-- A non-skipped line whose stripped payload parses as JSON is handled by
dispatching on the payload's discriminator. -/
theorem classifyLine_data_parsed {l : String} {j : Json}
    (h1 : trimSpace l ≠ "")
    (h2 : strStartsWith (trimSpace l) "event:" = false)
    (hp : Json.parse? (trimSpace (strTrimPre (trimSpace l) "data:")) = some j) :
    classifyLine l = dispatch (trimSpace (strTrimPre (trimSpace l) "data:")) j := by
  rw [classifyLine_not_skipped h1 h2]
  unfold handleData
  rw [hp]

/-- A non-skipped line whose stripped payload is not valid JSON makes the
loop body fail with that payload. -/
theorem classifyLineB_parse_fail {l : String}
    (h1 : trimSpace l ≠ "")
    (h2 : strStartsWith (trimSpace l) "event:" = false)
    (hp : Json.parse? (trimSpace (strTrimPre (trimSpace l) "data:")) = none) :
    classifyLine l =
      Step.fail (trimSpace (strTrimPre (trimSpace l) "data:")) := by
  rw [classifyLine_not_skipped h1 h2]
  unfold handleData
  rw [hp]

end Anthropic

namespace OpenAI

/-- A non-blank line whose stripped payload is not valid JSON makes the
loop body fail with that payload. -/
theorem classifyLineA_parse_fail {l : String}
    (h1 : trimSpace l ≠ "")
    (hp : Json.parse? (strTrimPre (trimSpace l) "data: ") = none) :
    classifyLine l = Step.fail (strTrimPre (trimSpace l) "data: ") := by
  simp only [classifyLine]
  rw [if_neg h1, hp]

end OpenAI

/-- C3: for Variant B, a record whose discriminator is `error` makes the
decode call fail with the message built from the payload's error type and
error message fields, and the handler is not invoked for that record (the
run delivers no event for it). -/
theorem c3_variantB_error_event_fails_call
    (l : String) (j : Json) (er : Anthropic.ErrorResponse) (rest : List String)
    (h1 : trimSpace l ≠ "")
    (h2 : strStartsWith (trimSpace l) "event:" = false)
    (hp : Json.parse? (trimSpace (strTrimPre (trimSpace l) "data:")) = some j)
    (ht : Anthropic.decodeEnvelopeType j = some "error")
    (hd : Anthropic.decodeErrorResponse j = some er) :
    Anthropic.chatStreamLoop (l :: rest) =
      { events := [],
        outcome := Anthropic.StreamOutcome.apiFailure
          (er.error.type ++ ": " ++ er.error.message),
        unread := rest } := by
  have hc := Anthropic.classifyLine_data_parsed h1 h2 hp
  rw [Anthropic.dispatch_error ht hd] at hc
  simp [Anthropic.chatStreamLoop, hc]

set_option maxRecDepth 8000 in
/-- Witness for C3 on a concrete upstream `error` record. -/
theorem c3_witness :
    Anthropic.chatStreamLoop ["data: \x7b\"type\":\"error\",\"error\":\x7b\"type\":\"overloaded_error\",\"message\":\"Overloaded\"\x7d\x7d\n", "data: junk\n"] =
      { events := [],
        outcome := Anthropic.StreamOutcome.apiFailure "overloaded_error: Overloaded",
        unread := ["data: junk\n"] } :=
  c3_variantB_error_event_fails_call
    "data: \x7b\"type\":\"error\",\"error\":\x7b\"type\":\"overloaded_error\",\"message\":\"Overloaded\"\x7d\x7d\n"
    _ _ ["data: junk\n"] (by decide) (by decide) rfl rfl rfl

set_option maxRecDepth 8000 in
/-- C4: for Variant B, a `message_stop` record is delivered to the handler
and then the call returns success at once, reading nothing further; and on
the specification's three-line example stream the handler receives exactly
the three events in wire order before the successful return. -/
theorem c4_variantB_message_stop_terminates
    (l : String) (j : Json) (e : Anthropic.MessageStopEvent)
    (rest : List String)
    (h1 : trimSpace l ≠ "")
    (h2 : strStartsWith (trimSpace l) "event:" = false)
    (hp : Json.parse? (trimSpace (strTrimPre (trimSpace l) "data:")) = some j)
    (ht : Anthropic.decodeEnvelopeType j = some "message_stop")
    (hd : Anthropic.decodeMessageStop j = some e) :
    Anthropic.chatStreamLoop (l :: rest) =
      { events := [Anthropic.Event.messageStop e],
        outcome := Anthropic.StreamOutcome.ok, unread := rest } ∧
    Anthropic.chatStreamLoop
        ["data: \x7b\"type\":\"message_start\",\"message\":\x7b\"id\":\"msg_1\",\"type\":\"message\",\"role\":\"assistant\",\"content\":[],\"model\":\"claude-3-opus-20240229\",\"stop_reason\":null,\"stop_sequence\":null,\"usage\":\x7b\"input_tokens\":10,\"output_tokens\":1\x7d\x7d\x7d\n",
         "data: \x7b\"type\":\"content_block_delta\",\"index\":0,\"delta\":\x7b\"type\":\"text_delta\",\"text\":\"Hi\"\x7d\x7d\n",
         "data: \x7b\"type\":\"message_stop\"\x7d\n"] =
      { events := [Anthropic.Event.messageStart
            ⟨"message_start",
             ⟨"msg_1", "message", "assistant", [], "claude-3-opus-20240229",
              "", "", ⟨10, 1⟩⟩⟩,
          Anthropic.Event.contentBlockDelta
            ⟨"content_block_delta", 0, ⟨"text_delta", "Hi"⟩⟩,
          Anthropic.Event.messageStop ⟨"message_stop"⟩],
        outcome := Anthropic.StreamOutcome.ok, unread := [] } := by
  constructor
  · have hc := Anthropic.classifyLine_data_parsed h1 h2 hp
    rw [Anthropic.dispatch_message_stop ht hd] at hc
    simp [Anthropic.chatStreamLoop, hc]
  · rfl

set_option maxRecDepth 8000 in
/-- Witness for C4: a concrete `message_stop` line terminates the call and
leaves the following line unread. -/
theorem c4_witness :
    Anthropic.chatStreamLoop ["data: \x7b\"type\":\"message_stop\"\x7d\n", "data: junk\n"] =
      { events := [Anthropic.Event.messageStop ⟨"message_stop"⟩],
        outcome := Anthropic.StreamOutcome.ok,
        unread := ["data: junk\n"] } :=
  (c4_variantB_message_stop_terminates
    "data: \x7b\"type\":\"message_stop\"\x7d\n" _ _ ["data: junk\n"]
    (by decide) (by decide) rfl rfl rfl).1

/-- C5: a stream that reaches end-of-input with every line either skipped
or decoded to a non-terminal event returns success in both variants, with
all events decoded before the EOF already delivered, in order. -/
theorem c5_eof_without_terminal_is_success
    (lsB : List String) (esB : List Anthropic.Event)
    (lsA : List String) (csA : List OpenAI.ChatChunk)
    (hB : Anthropic.Delivers lsB esB) (hA : OpenAI.Delivers lsA csA) :
    Anthropic.chatStreamLoop lsB =
      { events := esB, outcome := Anthropic.StreamOutcome.ok, unread := [] } ∧
    OpenAI.chatStreamLoop lsA =
      { events := csA, outcome := OpenAI.StreamOutcome.ok, unread := [] } := by
  constructor
  · have h := Anthropic.deliversB_append hB []
    simpa [Anthropic.chatStreamLoop] using h
  · have h := OpenAI.deliversA_append hA []
    simpa [OpenAI.chatStreamLoop] using h

set_option maxRecDepth 8000 in
/-- Witness for C5: truncated streams with no terminal marker — a ping and
a blank line for Variant B, one finish-reason-free record for Variant A —
end in success with the delivered events. -/
theorem c5_witness :
    Anthropic.chatStreamLoop ["data: \x7b\"type\":\"ping\"\x7d\n", "\n"] =
      { events := [Anthropic.Event.ping ⟨"ping"⟩],
        outcome := Anthropic.StreamOutcome.ok, unread := [] } ∧
    OpenAI.chatStreamLoop ["data: \x7b\"id\":\"c1\",\"choices\":[\x7b\"delta\":\x7b\"content\":\"Hi\"\x7d,\"index\":0\x7d]\x7d\n"] =
      { events := [⟨"c1", "", 0, "", [⟨⟨"Hi", ""⟩, "", 0⟩]⟩],
        outcome := OpenAI.StreamOutcome.ok, unread := [] } :=
  c5_eof_without_terminal_is_success
    ["data: \x7b\"type\":\"ping\"\x7d\n", "\n"] [Anthropic.Event.ping ⟨"ping"⟩]
    ["data: \x7b\"id\":\"c1\",\"choices\":[\x7b\"delta\":\x7b\"content\":\"Hi\"\x7d,\"index\":0\x7d]\x7d\n"]
    [⟨"c1", "", 0, "", [⟨⟨"Hi", ""⟩, "", 0⟩]⟩]
    (Anthropic.Delivers.emit rfl (Anthropic.Delivers.skip rfl Anthropic.Delivers.nil))
    (@OpenAI.Delivers.emit
      "data: \x7b\"id\":\"c1\",\"choices\":[\x7b\"delta\":\x7b\"content\":\"Hi\"\x7d,\"index\":0\x7d]\x7d\n"
      [⟨"c1", "", 0, "", [⟨⟨"Hi", ""⟩, "", 0⟩]⟩] [] [] rfl OpenAI.Delivers.nil)

/-- C6: for Variant B, a record whose discriminator is none of the known
kinds is skipped — no handler invocation, no abort — and the loop treats
the remaining lines exactly as it would without the unknown record. -/
theorem c6_unknown_discriminator_skipped
    (l : String) (j : Json) (t : String) (rest : List String)
    (h1 : trimSpace l ≠ "")
    (h2 : strStartsWith (trimSpace l) "event:" = false)
    (hp : Json.parse? (trimSpace (strTrimPre (trimSpace l) "data:")) = some j)
    (ht : Anthropic.decodeEnvelopeType j = some t)
    (hunk : t ∉ (["ping", "message_start", "content_block_start",
      "content_block_delta", "content_block_stop", "message_delta",
      "message_stop", "error"] : List String)) :
    Anthropic.classifyLine l = Anthropic.Step.skip ∧
    Anthropic.chatStreamLoop (l :: rest) = Anthropic.chatStreamLoop rest := by
  have hc := Anthropic.classifyLine_data_parsed h1 h2 hp
  rw [Anthropic.dispatch_unknown ht hunk] at hc
  exact ⟨hc, by simp [Anthropic.chatStreamLoop, hc]⟩

set_option maxRecDepth 8000 in
/-- Witness for C6: a future `tool_use_delta` record is skipped and the
ping after it is still delivered. -/
theorem c6_witness :
    Anthropic.classifyLine "data: \x7b\"type\":\"tool_use_delta\"\x7d\n" =
      Anthropic.Step.skip ∧
    Anthropic.chatStreamLoop
        ["data: \x7b\"type\":\"tool_use_delta\"\x7d\n", "data: \x7b\"type\":\"ping\"\x7d\n"] =
      Anthropic.chatStreamLoop ["data: \x7b\"type\":\"ping\"\x7d\n"] :=
  c6_unknown_discriminator_skipped
    "data: \x7b\"type\":\"tool_use_delta\"\x7d\n" _ "tool_use_delta"
    ["data: \x7b\"type\":\"ping\"\x7d\n"]
    (by decide) (by decide) rfl rfl (by decide)

/-- C7: in both variants a record whose data payload is invalid JSON
aborts the decode call with a decode error carrying that payload, the
handler is not invoked for that record, the events delivered before it
remain delivered, and no handler invocation happens after the failure. -/
theorem c7_invalid_json_aborts_both
    (preB : List String) (esB : List Anthropic.Event) (lB : String)
    (restB : List String)
    (hpreB : Anthropic.Delivers preB esB)
    (h1B : trimSpace lB ≠ "")
    (h2B : strStartsWith (trimSpace lB) "event:" = false)
    (hpB : Json.parse? (trimSpace (strTrimPre (trimSpace lB) "data:")) = none)
    (preA : List String) (csA : List OpenAI.ChatChunk) (lA : String)
    (restA : List String)
    (hpreA : OpenAI.Delivers preA csA)
    (h1A : trimSpace lA ≠ "")
    (hpA : Json.parse? (strTrimPre (trimSpace lA) "data: ") = none) :
    Anthropic.chatStreamLoop (preB ++ lB :: restB) =
      { events := esB,
        outcome := Anthropic.StreamOutcome.decodeFailure
          (trimSpace (strTrimPre (trimSpace lB) "data:")),
        unread := restB } ∧
    OpenAI.chatStreamLoop (preA ++ lA :: restA) =
      { events := csA,
        outcome := OpenAI.StreamOutcome.decodeFailure
          (strTrimPre (trimSpace lA) "data: "),
        unread := restA } := by
  constructor
  · have hc := Anthropic.classifyLineB_parse_fail h1B h2B hpB
    rw [Anthropic.deliversB_append hpreB]
    simp [Anthropic.chatStreamLoop, hc]
  · have hc := OpenAI.classifyLineA_parse_fail h1A hpA
    rw [OpenAI.deliversA_append hpreA]
    simp [OpenAI.chatStreamLoop, hc]

set_option maxRecDepth 8000 in
/-- Witness for C7: a ping (resp. one chunk record) is delivered, then a
malformed payload aborts each variant with a decode error, leaving the
rest unread. -/
theorem c7_witness :
    Anthropic.chatStreamLoop
        (["data: \x7b\"type\":\"ping\"\x7d\n"] ++ "data: \x7bbad\n" :: ["data: junk\n"]) =
      { events := [Anthropic.Event.ping ⟨"ping"⟩],
        outcome := Anthropic.StreamOutcome.decodeFailure "\x7bbad",
        unread := ["data: junk\n"] } ∧
    OpenAI.chatStreamLoop
        (["data: \x7b\"id\":\"c1\",\"choices\":[\x7b\"delta\":\x7b\"content\":\"Hi\"\x7d,\"index\":0\x7d]\x7d\n"] ++
          "data: \x7bbad\n" :: ["data: junk\n"]) =
      { events := [⟨"c1", "", 0, "", [⟨⟨"Hi", ""⟩, "", 0⟩]⟩],
        outcome := OpenAI.StreamOutcome.decodeFailure "\x7bbad",
        unread := ["data: junk\n"] } :=
  c7_invalid_json_aborts_both
    ["data: \x7b\"type\":\"ping\"\x7d\n"] [Anthropic.Event.ping ⟨"ping"⟩]
    "data: \x7bbad\n" ["data: junk\n"]
    (Anthropic.Delivers.emit rfl Anthropic.Delivers.nil)
    (by decide) (by decide) rfl
    ["data: \x7b\"id\":\"c1\",\"choices\":[\x7b\"delta\":\x7b\"content\":\"Hi\"\x7d,\"index\":0\x7d]\x7d\n"]
    [⟨"c1", "", 0, "", [⟨⟨"Hi", ""⟩, "", 0⟩]⟩] "data: \x7bbad\n" ["data: junk\n"]
    (@OpenAI.Delivers.emit
      "data: \x7b\"id\":\"c1\",\"choices\":[\x7b\"delta\":\x7b\"content\":\"Hi\"\x7d,\"index\":0\x7d]\x7d\n"
      [⟨"c1", "", 0, "", [⟨⟨"Hi", ""⟩, "", 0⟩]⟩] [] [] rfl OpenAI.Delivers.nil)
    (by decide) rfl

/-- C8 counterexample: Variant A does not skip `event:` framing lines.  On
the line `event: ping` the openai loop treats the whole line as a data
payload, fails to unmarshal it, and aborts with a decode error — the claim
that both variants skip such framing lines without error is false. -/
theorem c8_counterexample_variantA_event_line_fails :
    OpenAI.chatStreamLoop ["event: ping\n"] =
      { events := [],
        outcome := OpenAI.StreamOutcome.decodeFailure "event: ping",
        unread := [] } ∧
    OpenAI.classifyLine "event: ping\n" = OpenAI.Step.fail "event: ping" ∧
    OpenAI.Step.fail "event: ping" ≠ OpenAI.Step.skip ∧
    OpenAI.StreamOutcome.decodeFailure "event: ping" ≠ OpenAI.StreamOutcome.ok :=
  ⟨rfl, rfl, fun h => OpenAI.Step.noConfusion h,
   fun h => OpenAI.StreamOutcome.noConfusion h⟩

/-- C8 (amended): both variants interpret each line only through its
whitespace-trimmed form and skip blank lines without error or handler
invocation; `event:` framing lines are skipped by Variant B only, whose
discriminator is read from the JSON payload of the stripped `data:` line;
Variant A does not skip `event:` framing lines. -/
theorem c8_amended_trimming_and_framing (l : String) (rest : List String) :
    (Anthropic.classifyLine l = Anthropic.classifyLine (trimSpace l) ∧
     OpenAI.classifyLine l = OpenAI.classifyLine (trimSpace l)) ∧
    (trimSpace l = "" →
      Anthropic.classifyLine l = Anthropic.Step.skip ∧
      OpenAI.classifyLine l = OpenAI.Step.skip ∧
      Anthropic.chatStreamLoop (l :: rest) = Anthropic.chatStreamLoop rest ∧
      OpenAI.chatStreamLoop (l :: rest) = OpenAI.chatStreamLoop rest) ∧
    (strStartsWith (trimSpace l) "event:" = true →
      Anthropic.classifyLine l = Anthropic.Step.skip ∧
      Anthropic.chatStreamLoop (l :: rest) = Anthropic.chatStreamLoop rest) ∧
    (trimSpace l ≠ "" → strStartsWith (trimSpace l) "event:" = false →
      Anthropic.classifyLine l =
        Anthropic.handleData (trimSpace (strTrimPre (trimSpace l) "data:"))) := by
  refine ⟨⟨?_, ?_⟩, fun he => ?_, fun hev => ?_, fun h1 h2 => ?_⟩
  · simp only [Anthropic.classifyLine, trimSpace_idem]
  · simp only [OpenAI.classifyLine, trimSpace_idem]
  · have hB : Anthropic.classifyLine l = Anthropic.Step.skip := by
      simp [Anthropic.classifyLine, he]
    have hA : OpenAI.classifyLine l = OpenAI.Step.skip := by
      simp [OpenAI.classifyLine, he]
    exact ⟨hB, hA, by simp [Anthropic.chatStreamLoop, hB],
      by simp [OpenAI.chatStreamLoop, hA]⟩
  · have hB : Anthropic.classifyLine l = Anthropic.Step.skip := by
      by_cases he : trimSpace l = ""
      · simp [Anthropic.classifyLine, he]
      · simp only [Anthropic.classifyLine]
        rw [if_neg he, if_pos (by simp [hev])]
    exact ⟨hB, by simp [Anthropic.chatStreamLoop, hB]⟩
  · exact Anthropic.classifyLine_not_skipped h1 h2

set_option maxRecDepth 8000 in
/-- Witness for the amended C8: a blank line is skipped by both variants,
and an `event:` framing line is skipped by Variant B with the following
record still processed. -/
theorem c8_amended_witness :
    (Anthropic.classifyLine "  \n" = Anthropic.Step.skip ∧
     OpenAI.classifyLine "  \n" = OpenAI.Step.skip) ∧
    (Anthropic.classifyLine " event: message_start\n" = Anthropic.Step.skip ∧
     Anthropic.chatStreamLoop
        [" event: message_start\n", "data: \x7b\"type\":\"ping\"\x7d\n"] =
      Anthropic.chatStreamLoop ["data: \x7b\"type\":\"ping\"\x7d\n"]) := by
  have h1 := (c8_amended_trimming_and_framing "  \n" []).2.1 (by decide)
  have h2 := (c8_amended_trimming_and_framing " event: message_start\n"
    ["data: \x7b\"type\":\"ping\"\x7d\n"]).2.2.1 (by decide)
  exact ⟨⟨h1.1, h1.2.1⟩, h2⟩

/-- C10: `Chat` sets the caller-supplied request struct's stream field to
`false` and `ChatStream` sets it to `true`, in both chat clients,
overwriting whatever value the caller had put there; since the struct is
passed by pointer, the update (and nothing else: every other field is kept)
is what the caller's struct holds after the call. -/
theorem c10_chat_calls_overwrite_stream_flag
    (ra : Anthropic.ChatRequest) (ro : OpenAI.ChatRequest) :
    ((Anthropic.chatSetStream ra).stream = false ∧
     Anthropic.chatSetStream ra = { ra with stream := false }) ∧
    ((Anthropic.chatStreamSetStream ra).stream = true ∧
     Anthropic.chatStreamSetStream ra = { ra with stream := true }) ∧
    ((OpenAI.chatSetStream ro).stream = false ∧
     OpenAI.chatSetStream ro = { ro with stream := false }) ∧
    ((OpenAI.chatStreamSetStream ro).stream = true ∧
     OpenAI.chatStreamSetStream ro = { ro with stream := true }) :=
  ⟨⟨rfl, rfl⟩, ⟨rfl, rfl⟩, ⟨rfl, rfl⟩, ⟨rfl, rfl⟩⟩
